import Mathlib

/-!
Verification development for the `joystick-rs` rawinput driver.

Shallow embedding of the core logic of the repository:
  * `src/driver/bits.rs`        — fixed-capacity bitsets (u32/u64/u128 via the
    `impl_bits!` macro, plus the two-limb `B256`);
  * `src/driver/mod.rs`         — `StateDiff::diffs`, the diff engine;
  * `src/driver/rawinput/api.rs`— capability resolution (`get_device_cap`),
    device arrival/removal/data processing (`process_input_change_message`,
    `process_input_message`, `get_input_event`) and the message loop
    (`start_message_loop`);
  * `src/driver/rawinput/mod.rs`— the second-generation capability resolver
    (`get_device`) producing `DeviceSpecs` and the `DeviceObjectIndex`
    mapping with `Unknown` entries.

Machine integers (`u16`, `u32`, `u128`, `usize`) are modelled as `Nat`
(values kept below `2 ^ width` by hypotheses where the width matters);
`i32` logical bounds are modelled as `Int`.  `HashMap<K, V>` is modelled as
an association list with insert-returning-previous semantics.  Fallible
Win32/HidP calls are modelled by explicit success flags carried in the
input blob; `Result` becomes `Except Unit`.
-/

/-! ## Basic data model (src/lib.rs) -/

/-- `DPadState` from src/lib.rs. -/
inductive DPadState where
  | null | up | down | left | right | upLeft | upRight | downLeft | downRight
deriving DecidableEq, Repr

/-- `ButtonState` from src/lib.rs. -/
inductive ButtonState where
  | pressed | released
deriving DecidableEq, Repr

/-- `impl From<bool> for ButtonState` (src/lib.rs:44-52). -/
def ButtonState.ofBool (v : Bool) : ButtonState :=
  if v then .pressed else .released

/-- `Button` from src/lib.rs (profile-level button identity). -/
inductive ButtonId where
  | start | select | mode | lThumb | rThumb | lShoulder | rShoulder
  | lTrigger | rTrigger | north | south | east | west
  | other (s : String)
deriving DecidableEq, Repr

/-- `Axis` from src/lib.rs (profile-level axis identity). -/
inductive AxisId where
  | lThumbX | lThumbY | rThumbX | rThumbY | lTrigger | rTrigger
  | other (s : String)
deriving DecidableEq, Repr

/-- `AxisDef` from src/lib.rs. -/
structure AxisDef where
  typ : AxisId
  centered : Bool
deriving DecidableEq, Repr

/-- `AxisIdent` from src/lib.rs (`Limit = 6` is the array length, not a value). -/
inductive AxisIdent where
  | X | Y | Z | RX | RY | RZ
deriving DecidableEq, Repr

/-- `AxisIdent as usize` (the `#[repr(usize)]` discriminant). -/
def AxisIdent.toIdx : AxisIdent → Nat
  | .X => 0 | .Y => 1 | .Z => 2 | .RX => 3 | .RY => 4 | .RZ => 5

/-- `ObjectDiff` from src/lib.rs; `AxisState = SliderState = i32`. -/
inductive ObjectDiff where
  | dpad (st : DPadState)
  | button (id : ButtonId) (st : ButtonState)
  | axis (id : AxisId) (st : Int)
  | slider (st : Int)
deriving DecidableEq, Repr

/-! ## Bitsets (src/driver/bits.rs)

The `impl_bits!` macro instantiates the same code for `u32`, `u64`, `u128`;
we model it as definitions parameterised by the width `w`, the value being a
`Nat` below `2 ^ w`.  `B256` is the two-limb composite. -/

/-- `bit` from `impl_bits!` (bits.rs:19-25): `None` if `pos >= CAP`, else
`(self & (1 << pos)) != 0`. -/
def bitW (w x pos : Nat) : Option Bool :=
  if pos ≥ w then none else some (decide (x &&& 1 <<< pos ≠ 0))

/-- `count_ones` intrinsic for a `w`-bit word: number of set bits. -/
def countOnesW (w x : Nat) : Nat :=
  (List.range w).countP (fun i => x.testBit i)

/-- `set` from `impl_bits!` (bits.rs:27-34), state part: `*self |= 1 << pos`
when `pos < CAP`, unchanged otherwise (the returned bool is ignored at the
use site in api.rs:708). -/
def setW (w x pos : Nat) : Nat :=
  if pos ≥ w then x else x ||| 1 <<< pos

/-- `B256` from bits.rs:48-92: two `u128` limbs. -/
structure B256 where
  lo : Nat
  hi : Nat
deriving DecidableEq, Repr

/-- The limbs really are `u128` values. -/
def B256.valid (x : B256) : Prop :=
  x.lo < 2 ^ 128 ∧ x.hi < 2 ^ 128

/-- `BitXor for B256` (bits.rs:52-58): limb-wise xor. -/
def B256.xor (x y : B256) : B256 :=
  ⟨x.lo ^^^ y.lo, x.hi ^^^ y.hi⟩

/-- `Bits::bit for B256` (bits.rs:63-73): position routing, `pos < 128`
reads limb 0, otherwise limb 1 at `pos - 128`. -/
def B256.bit (x : B256) (pos : Nat) : Option Bool :=
  if pos ≥ 256 then none
  else if pos < 128 then some (decide (x.lo &&& 1 <<< pos ≠ 0))
  else some (decide (x.hi &&& 1 <<< (pos - 128) ≠ 0))

/-- `Bits::count_ones for B256` (bits.rs:89-91). -/
def B256.countOnes (x : B256) : Nat :=
  countOnesW 128 x.lo + countOnesW 128 x.hi

/-! ## Diff engine (src/driver/mod.rs) -/

/-- `StateDiff<B>` from src/driver/mod.rs:13-18.  `buttons` is the pair
(changed-bits, current-bits); `axis` is the length-6 array of
`Option<AxisState>`. -/
structure StateDiff (β : Type) where
  dpad : Option DPadState
  buttons : β × β
  axis : List (Option Int)
  slider : Option Int
deriving DecidableEq, Repr

/-- `StateDiff::diffs` (src/driver/mod.rs:21-58), parameterised by the
`Bits::bit` operation of `B` and by the profile constants `J::BUTTONS` and
`J::AXIS`.  The Rust builds one `Vec` by sequential pushes: D-pad first,
then one pass over `J::BUTTONS`, one pass over the present entries of
`J::AXIS`, then the slider.  (The `obj_count` capacity computation at
mod.rs:22-26 has no observable effect and is omitted.) -/
def StateDiff.diffs {β : Type} (bit : β → Nat → Option Bool)
    (BTNS : List ButtonId) (AXS : List (Option AxisDef))
    (sd : StateDiff β) : List ObjectDiff :=
  (match sd.dpad with
   | some st => [ObjectDiff.dpad st]
   | none => []) ++
  (BTNS.enum.filterMap fun p =>
    match bit sd.buttons.1 p.1 with
    | some true =>
        some (ObjectDiff.button p.2 (ButtonState.ofBool ((bit sd.buttons.2 p.1).getD false)))
    | _ => none) ++
  ((AXS.enum.filterMap fun p => p.2.map fun prof => (p.1, prof)).filterMap fun q =>
    match (sd.axis.get? q.1).join with
    | some st => some (ObjectDiff.axis q.2.typ st)
    | none => none) ++
  (match sd.slider with
   | some st => [ObjectDiff.slider st]
   | none => [])

/-! ## Hat decoding (src/driver/rawinput/api.rs:689-704) -/

/-- The `match data.Anonymous.RawValue` arm of `get_input_event` that decodes
a hat raw code into a `DPadState`. -/
def dpadOfRaw (v : Nat) : DPadState :=
  match v with
  | 0 => .up
  | 1 => .upRight
  | 2 => .right
  | 3 => .downRight
  | 4 => .down
  | 5 => .downLeft
  | 6 => .left
  | 7 => .upLeft
  | _ => .null

/-! ## HashMap model

`HashMap<u16, _>` / `HashMap<isize, _>` are modelled as association lists
whose keys stay unique (inserts replace in place).  `insertRet` mirrors
`HashMap::insert`, returning the previous value for the key. -/

def lookupL {κ α : Type} [DecidableEq κ] : List (κ × α) → κ → Option α
  | [], _ => none
  | (k, v) :: rest, key => if k = key then some v else lookupL rest key

/-- `HashMap::insert`: replaces the entry for the key (keeping its slot) and
returns the previous value, or appends a fresh entry. -/
def insertRet {κ α : Type} [DecidableEq κ]
    (m : List (κ × α)) (key : κ) (v : α) : List (κ × α) × Option α :=
  match lookupL m key with
  | none => (m ++ [(key, v)], none)
  | some old => (m.map fun p => if p.1 = key then (key, v) else p, some old)

/-- `HashMap::remove`, state part. -/
def removeL {κ α : Type} [DecidableEq κ] (m : List (κ × α)) (key : κ) : List (κ × α) :=
  m.filter fun p => p.1 ≠ key

/-! ## HID usage constants (windows crate) -/

def HID_USAGE_PAGE_GENERIC : Nat := 0x01
def HID_USAGE_GENERIC_X : Nat := 0x30
def HID_USAGE_GENERIC_Y : Nat := 0x31
def HID_USAGE_GENERIC_Z : Nat := 0x32
def HID_USAGE_GENERIC_RX : Nat := 0x33
def HID_USAGE_GENERIC_RY : Nat := 0x34
def HID_USAGE_GENERIC_RZ : Nat := 0x35
def HID_USAGE_GENERIC_SLIDER : Nat := 0x36
def HID_USAGE_GENERIC_HATSWITCH : Nat := 0x39

/-- `HID_AXIS_USAGES` (api.rs:53-60, mod.rs:45-52). -/
def HID_AXIS_USAGES : List Nat :=
  [HID_USAGE_GENERIC_X, HID_USAGE_GENERIC_Y, HID_USAGE_GENERIC_Z,
   HID_USAGE_GENERIC_RX, HID_USAGE_GENERIC_RY, HID_USAGE_GENERIC_RZ]

/-! ## Capability records (HIDP_BUTTON_CAPS / HIDP_VALUE_CAPS)

Only the fields the two resolvers read are modelled.  A button capability is
read either as a data-index range or as a single data index; a value
capability carries its union fields plus usage page and logical bounds. -/

/-- `HIDP_BUTTON_CAPS`, restricted to the fields read by the resolvers:
`IsRange`, `Range.DataIndexMin/Max`, `NotRange.DataIndex`. -/
inductive ButtonCapRec where
  | range (dataIndexMin dataIndexMax : Nat)
  | single (dataIndex : Nat)
deriving DecidableEq, Repr

/-- The data indices a button capability record touches, in iteration order:
`DataIndexMin..=DataIndexMax` for a range (empty when `max < min`, as for the
Rust inclusive range on `u16`), the single index otherwise. -/
def ButtonCapRec.indices : ButtonCapRec → List Nat
  | .range lo hi => if lo ≤ hi then (List.range (hi + 1 - lo)).map (lo + ·) else []
  | .single di => [di]

/-- The union part of `HIDP_VALUE_CAPS`: `Range.DataIndexMin`/`Range.UsageMin`
when `IsRange`, `NotRange.DataIndex`/`NotRange.Usage` otherwise. -/
inductive ValueCapKind where
  | range (dataIndexMin usageMin : Nat)
  | notRange (dataIndex usage : Nat)
deriving DecidableEq, Repr

/-- `HIDP_VALUE_CAPS`, restricted to the fields the resolvers read. -/
structure ValueCapRec where
  kind : ValueCapKind
  usagePage : Nat
  logicalMin : Int
  logicalMax : Int
deriving DecidableEq, Repr

/-- `(di, usage)` extraction in api.rs `get_device_cap` (api.rs:495-505):
range → `(DataIndexMin, UsageMin)`, single → `(DataIndex, Usage)`. -/
def ValueCapRec.apiDiUsage (c : ValueCapRec) : Nat × Nat :=
  match c.kind with
  | .range diMin uMin => (diMin, uMin)
  | .notRange di u => (di, u)

/-- `(di, usage)` extraction in mod.rs `get_device` (mod.rs:398-408): range →
`(DataIndexMin, UsageMin)`; in the single case the source binds
`(NotRange.Usage, NotRange.DataIndex)` to `(di, usage)`, i.e. the two fields
are swapped relative to the range arm. -/
def ValueCapRec.modDiUsage (c : ValueCapRec) : Nat × Nat :=
  match c.kind with
  | .range diMin uMin => (diMin, uMin)
  | .notRange di u => (u, di)

/-! ## Second-generation resolver (src/driver/rawinput/mod.rs:284-464)

`get_device` builds a `DevInfo` (running counters + mapping) together with
the `axis_specs`/`slider_specs` range tables, and finally a `DeviceSpecs`.
Diagnostics (`warn!`) are counted in `warns`. -/

/-- `AxisType` (referenced from mod.rs; the enum of the six generic-desktop
axes, as listed in the classification arms at mod.rs:425-432). -/
inductive AxisType where
  | X | Y | Z | RX | RY | RZ
deriving DecidableEq, Repr

/-- `DeviceObjectIndex` from mod.rs:125-132. -/
inductive ModObjIdx where
  | button (ordinal : Nat)
  | axis (ordinal : Nat)
  | slider (ordinal : Nat)
  | hat (ordinal : Nat)
  | unknown (usagePage usageId : Nat)
deriving DecidableEq, Repr

/-- Running state of mod.rs `get_device`: the `DevInfo` counters and mapping
(mod.rs:136-144), the `axis_specs`/`slider_specs` accumulators
(mod.rs:339-340), and a count of emitted `warn!` diagnostics. -/
structure ModResolveState where
  buttons : Nat
  axises : List AxisType
  sliders : Nat
  hats : Nat
  mapping : List (Nat × ModObjIdx)
  axisSpecs : List (AxisType × Int × Int)
  sliderSpecs : List (Int × Int)
  warns : Nat
deriving DecidableEq, Repr

def ModResolveState.init : ModResolveState :=
  ⟨0, [], 0, 0, [], [], [], 0⟩

/-- One button data index in mod.rs:356-381: insert
`Button(info.buttons)`, warn on duplicate, then `info.buttons += 1`. -/
def modButtonStep (st : ModResolveState) (di : Nat) : ModResolveState :=
  let ins := insertRet st.mapping di (ModObjIdx.button st.buttons)
  { st with
      mapping := ins.1
      buttons := st.buttons + 1
      warns := st.warns + (if ins.2.isSome then 1 else 0) }

/-- One `HIDP_BUTTON_CAPS` record in mod.rs:354-382 (range: every index in
the span; single: one index). -/
def modButtonCap (st : ModResolveState) (cap : ButtonCapRec) : ModResolveState :=
  cap.indices.foldl modButtonStep st

/-- Classification of one value capability (mod.rs:410-442): the produced
`DeviceObjectIndex` item together with the state after the counter/spec-table
updates of the matching arm. -/
def modClassifyValue (st : ModResolveState) (cap : ValueCapRec) :
    ModObjIdx × ModResolveState :=
  let usage := cap.modDiUsage.2
  if cap.usagePage = HID_USAGE_PAGE_GENERIC ∧ usage = HID_USAGE_GENERIC_SLIDER then
    (ModObjIdx.slider st.sliders,
     { st with sliders := st.sliders + 1
               sliderSpecs := st.sliderSpecs ++ [(cap.logicalMin, cap.logicalMax)] })
  else if cap.usagePage = HID_USAGE_PAGE_GENERIC ∧ usage = HID_USAGE_GENERIC_HATSWITCH then
    (ModObjIdx.hat st.hats, { st with hats := st.hats + 1 })
  else if cap.usagePage = HID_USAGE_PAGE_GENERIC ∧ usage ∈ HID_AXIS_USAGES then
    let atyp :=
      if usage = HID_USAGE_GENERIC_X then AxisType.X
      else if usage = HID_USAGE_GENERIC_Y then AxisType.Y
      else if usage = HID_USAGE_GENERIC_Z then AxisType.Z
      else if usage = HID_USAGE_GENERIC_RX then AxisType.RX
      else if usage = HID_USAGE_GENERIC_RY then AxisType.RY
      else AxisType.RZ
    (ModObjIdx.axis st.axises.length,
     { st with axises := st.axises ++ [atyp]
               axisSpecs := st.axisSpecs ++ [(atyp, cap.logicalMin, cap.logicalMax)] })
  else
    (ModObjIdx.unknown cap.usagePage usage, st)

/-- One `HIDP_VALUE_CAPS` record in mod.rs:397-453: classify, then
`info.mapping.insert(di, item)` with a warn on any previous entry. -/
def modValueCap (st : ModResolveState) (cap : ValueCapRec) : ModResolveState :=
  let cls := modClassifyValue st cap
  let ins := insertRet cls.2.mapping cap.modDiUsage.1 cls.1
  { cls.2 with
      mapping := ins.1
      warns := cls.2.warns + (if ins.2.isSome then 1 else 0) }

/-- mod.rs `get_device`, capability-resolution part: the button-caps loop
followed by the value-caps loop (mod.rs:342-454). -/
def modResolve (bcaps : List ButtonCapRec) (vcaps : List ValueCapRec) : ModResolveState :=
  vcaps.foldl modValueCap (bcaps.foldl modButtonCap ModResolveState.init)

/-- `DeviceSpecs` (built at mod.rs:456-461). -/
structure DeviceSpecs where
  button_count : Nat
  axis : List (AxisType × Int × Int)
  sliders : List (Int × Int)
  hats_count : Nat
deriving DecidableEq, Repr

def ModResolveState.specs (st : ModResolveState) : DeviceSpecs :=
  ⟨st.buttons, st.axisSpecs, st.sliderSpecs, st.hats⟩

/-- The button entries `(data index, ordinal)` of a resolved mapping, in
mapping order. -/
def buttonEntries (m : List (Nat × ModObjIdx)) : List (Nat × Nat) :=
  m.filterMap fun p =>
    match p.2 with
    | ModObjIdx.button n => some (p.1, n)
    | _ => none

/-! ## First-generation pipeline (src/driver/rawinput/api.rs)

`ButtonBits` is `u32`: api.rs:49 pins the event type to
`Event<isize, u32>`, so `ButtonBits::CAP = 32`. -/

def buttonBitsCap : Nat := 32

/-- `DeviceObjectIndex` from api.rs:148-154. -/
inductive ApiObjIdx where
  | dpadIdx
  | button (ordinal : Nat)
  | axis (ident : AxisIdent)
  | sliderIdx
deriving DecidableEq, Repr

/-- `DeviceCap` from api.rs:138-146.  The stored `HIDP_VALUE_CAPS` slots are
reduced to their consumed fields `(LogicalMin, LogicalMax)`; `button_caps`
is only stored, never read again, and is omitted. -/
structure DeviceCapA where
  dpad : Option (Int × Int)
  buttonsNum : Nat
  axisCaps : List (Option (Int × Int))
  slider : Option (Int × Int)
  mapping : List (Nat × ApiObjIdx)
deriving DecidableEq, Repr

def DeviceCapA.empty : DeviceCapA :=
  ⟨none, 0, [none, none, none, none, none, none], none, []⟩

/-- `DeviceObjectStates` from api.rs:156-162 (`ButtonBits = u32`). -/
structure DeviceObjectStatesA where
  dpad : Option DPadState
  buttons : Nat
  axis : List (Option Int)
  slider : Option Int
deriving DecidableEq, Repr

def DeviceObjectStatesA.default : DeviceObjectStatesA :=
  ⟨none, 0, [none, none, none, none, none, none], none⟩

/-- `DeviceStatus` from api.rs:164-170 (the name is unused downstream and
the pre-parsed blob is consumed only through `HidP_GetData`, modelled away
by passing decoded report items). -/
structure DeviceStatusA where
  maxDataCount : Nat
  cap : DeviceCapA
  objStates : DeviceObjectStatesA
deriving DecidableEq, Repr

/-- The opaque capability blob of one device as api.rs observes it through
the HidP calls: `HidP_MaxDataListLength`, whether each of `HidP_GetCaps`,
`HidP_GetButtonCaps`, `HidP_GetValueCaps` succeeds, and the returned
capability arrays (the `Number…Caps` counts are the array lengths). -/
structure ApiBlob where
  maxDataListLength : Nat
  getCapsOk : Bool
  getButtonCapsOk : Bool
  getValueCapsOk : Bool
  buttonCaps : List ButtonCapRec
  valueCaps : List ValueCapRec
deriving DecidableEq, Repr

/-- One button data index in api.rs:447-464: the ordinal is
`dev_cap.mapping.len()` at insert time (the insert result is ignored, so no
diagnostic on a duplicate). -/
def apiButtonStep (m : List (Nat × ApiObjIdx)) (di : Nat) : List (Nat × ApiObjIdx) :=
  (insertRet m di (ApiObjIdx.button m.length)).1

/-- The button-caps loop of api.rs:447-464. -/
def apiButtonMapping (caps : List ButtonCapRec) : List (Nat × ApiObjIdx) :=
  caps.foldl (fun m c => c.indices.foldl apiButtonStep m) []

/-- `AxisIdent` from a generic-desktop axis usage (api.rs:526-534). -/
def axisIdentOfUsage (usage : Nat) : AxisIdent :=
  if usage = HID_USAGE_GENERIC_X then .X
  else if usage = HID_USAGE_GENERIC_Y then .Y
  else if usage = HID_USAGE_GENERIC_Z then .Z
  else if usage = HID_USAGE_GENERIC_RX then .RX
  else if usage = HID_USAGE_GENERIC_RY then .RY
  else .RZ

/-- One `HIDP_VALUE_CAPS` record in api.rs:494-567: classify into a slot +
object id; an unmatched page/usage, or a hat whose logical range is not
exactly `[0,7]`, selects no slot and inserts nothing into the mapping.
Otherwise the slot is replaced by the record (warn if it was occupied) and
`mapping.insert(di, dev_id)` runs (warn if the index was mapped). -/
def apiValueCap (c : DeviceCapA) (cap : ValueCapRec) : DeviceCapA :=
  let di := cap.apiDiUsage.1
  let usage := cap.apiDiUsage.2
  let rng : Int × Int := (cap.logicalMin, cap.logicalMax)
  if cap.usagePage = HID_USAGE_PAGE_GENERIC ∧ usage = HID_USAGE_GENERIC_SLIDER then
    { c with slider := some rng
             mapping := (insertRet c.mapping di ApiObjIdx.sliderIdx).1 }
  else if cap.usagePage = HID_USAGE_PAGE_GENERIC ∧ usage = HID_USAGE_GENERIC_HATSWITCH then
    if ¬(cap.logicalMin = 0 ∧ cap.logicalMax = 7) then c
    else
      { c with dpad := some rng
               mapping := (insertRet c.mapping di ApiObjIdx.dpadIdx).1 }
  else if cap.usagePage = HID_USAGE_PAGE_GENERIC ∧ usage ∈ HID_AXIS_USAGES then
    let ident := axisIdentOfUsage usage
    { c with axisCaps := c.axisCaps.set ident.toIdx (some rng)
             mapping := (insertRet c.mapping di (ApiObjIdx.axis ident)).1 }
  else c

/-- `get_device_cap` (api.rs:416-571).  Errors are the unparseable-blob
paths (`HidP_MaxDataListLength` zero, or a failing `HidP_Get*Caps` call);
`Ok(None)` is the silent-drop path (no buttons & values, or button count
over `ButtonBits::CAP`). -/
def getDeviceCapA (blob : ApiBlob) : Except Unit (Option DeviceCapA) :=
  if blob.maxDataListLength = 0 then .error ()
  else if blob.getCapsOk = false then .error ()
  else if blob.buttonCaps.isEmpty ∧ blob.valueCaps.isEmpty then .ok none
  else if blob.buttonCaps.length > 0 ∧ blob.getButtonCapsOk = false then .error ()
  else if (apiButtonMapping blob.buttonCaps).length > buttonBitsCap then .ok none
  else if blob.valueCaps.length > 0 ∧ blob.getValueCapsOk = false then .error ()
  else
    .ok (some (blob.valueCaps.foldl apiValueCap
      { DeviceCapA.empty with
          mapping := apiButtonMapping blob.buttonCaps
          buttonsNum := (apiButtonMapping blob.buttonCaps).length }))

/-- `DeviceInfo` from src/driver/mod.rs:61-67 (name omitted). -/
structure DeviceInfoA where
  buttonsNum : Nat
  dpad : Bool
  axis : List (Option (Int × Int))
  slider : Option (Int × Int)
deriving DecidableEq, Repr

/-- The `(0, -1) → (0, 65535)` rewrite applied to an axis range in api.rs
`get_device` (api.rs:343-347). -/
def apiNormalize (r : Int × Int) : Int × Int :=
  if r.1 = 0 ∧ r.2 = -1 then (0, 65535) else r

/-- `DeviceInfo` construction in api.rs `get_device` (api.rs:333-356): the
axis ranges go through `apiNormalize`; the slider range is copied verbatim
from the capability slot. -/
def mkInfoA (c : DeviceCapA) : DeviceInfoA :=
  { buttonsNum := c.buttonsNum
    dpad := c.dpad.isSome
    axis := c.axisCaps.map (Option.map apiNormalize)
    slider := c.slider }

/-- What `get_device` (api.rs:275-367) observes about one arriving device:
an early error (name / device-info fetch failure), a non-joystick device
info, or the capability blob. -/
inductive DevFetch where
  | earlyErr
  | notJoystick
  | blob (b : ApiBlob)
deriving DecidableEq, Repr

/-- `get_device` (api.rs:275-367): early failures propagate as errors, an
unsupported device type yields `Ok(None)` with a diagnostic, otherwise the
result is determined by `get_device_cap` (the `max_data_count == 0` check at
api.rs:322-325 is subsumed by the identical check inside `get_device_cap`).
On success the registry entry starts with all-default object states. -/
def getDeviceA : DevFetch → Except Unit (Option (DeviceInfoA × DeviceStatusA))
  | .earlyErr => .error ()
  | .notJoystick => .ok none
  | .blob b =>
    match getDeviceCapA b with
    | .error e => .error e
    | .ok none => .ok none
    | .ok (some cap) =>
        .ok (some (mkInfoA cap, ⟨b.maxDataListLength, cap, DeviceObjectStatesA.default⟩))

/-! ### Report decoding and the message loop (api.rs:172-216, 573-740) -/

/-- One `HIDP_DATA` item: the data index plus the union value (`On` for
buttons, `RawValue` for values). -/
structure DataItem where
  dataIndex : Nat
  isOn : Bool
  rawValue : Nat
deriving DecidableEq, Repr

/-- The registry: `HashMap<isize, DeviceStatus>`. -/
abbrev RegistryA := List (Int × DeviceStatusA)

/-- The per-item update of `get_input_event`'s decode loop (api.rs:677-722),
starting from a default snapshot: unmapped indices are skipped; buttons set
their bit only when `On`; axes write into the fixed 6-slot array; hat raw
codes go through `dpadOfRaw`. -/
def decodeStep (mapping : List (Nat × ApiObjIdx)) (st : DeviceObjectStatesA)
    (item : DataItem) : DeviceObjectStatesA :=
  match lookupL mapping item.dataIndex with
  | none => st
  | some ApiObjIdx.dpadIdx => { st with dpad := some (dpadOfRaw item.rawValue) }
  | some (ApiObjIdx.button idx) =>
      if item.isOn then { st with buttons := setW 32 st.buttons idx } else st
  | some (ApiObjIdx.axis ident) =>
      { st with axis := st.axis.set ident.toIdx (some (Int.ofNat item.rawValue)) }
  | some ApiObjIdx.sliderIdx => { st with slider := some (Int.ofNat item.rawValue) }

/-- The full decode of one report's data items (api.rs:658-723). -/
def decodeReport (mapping : List (Nat × ApiObjIdx)) (items : List DataItem) :
    DeviceObjectStatesA :=
  items.foldl (decodeStep mapping) DeviceObjectStatesA.default

/-- `Event` as instantiated in api.rs:49 (`Event<isize, u32>`); the error
payloads of `Warn` are dropped. -/
inductive EventA where
  | attached (id : Int) (info : DeviceInfoA)
  | deattached (id : Int)
  | stateDiff (id : Int) (isSink : Bool) (diff : StateDiff Nat)
  | warn
deriving DecidableEq, Repr

/-- `get_input_event` (api.rs:640-740) for a HID-typed raw-input packet
whose items were already extracted by `HidP_GetData`: an identity with no
registry entry is an error; otherwise the decoded snapshot replaces the
stored one and a `StateDiff` event is produced whose button pair is
`(curr ^ prev, curr)`. -/
def getInputEventA (devices : RegistryA) (isSink : Bool) (id : Int)
    (items : List DataItem) : Except Unit (RegistryA × Option EventA) :=
  match lookupL devices id with
  | none => .error ()
  | some st =>
      let newStates := decodeReport st.cap.mapping items
      let prev := st.objStates
      let btnsDiff := newStates.buttons ^^^ prev.buttons
      let devices' :=
        (insertRet devices id { st with objStates := newStates }).1
      .ok (devices', some (EventA.stateDiff id isSink
        ⟨newStates.dpad, (btnsDiff, newStates.buttons), newStates.axis, newStates.slider⟩))

/-- Outcome of one iteration of `start_message_loop`'s body. -/
inductive StepOut where
  | stopLoop
  | sendEvent (e : Option EventA)
deriving DecidableEq, Repr

/-- One platform message, carrying what the external calls would return. -/
inductive MsgA where
  | close
  | arrival (id : Int) (fetch : DevFetch)
  | removal (id : Int)
  | otherChange (id : Int)
  | input (wparam : Nat) (id : Int) (items : List DataItem)
  | otherMsg
deriving DecidableEq, Repr

/-- `RIM_INPUT` / `RIM_INPUTSINK` wparam codes of `WM_INPUT`. -/
def RIM_INPUT : Nat := 0
def RIM_INPUTSINK : Nat := 1

/-- The body of one `start_message_loop` iteration (api.rs:191-215) given
the registry it operates on: `WM_CLOSE` stops the loop; an arrival runs
`process_input_change_message` → `get_device` (errors become a `Warn`
event, `Ok(None)` sends nothing, success inserts the entry and sends
`Attached`); a removal removes the entry (diagnostic only if absent) and
sends `Deattached`; `WM_INPUT` runs `process_input_message` →
`get_input_event` (errors become `Warn`). -/
def stepMsgA (devices : RegistryA) : MsgA → RegistryA × StepOut
  | .close => (devices, .stopLoop)
  | .arrival id fetch =>
      match getDeviceA fetch with
      | .error _ => (devices, .sendEvent (some .warn))
      | .ok none => (devices, .sendEvent none)
      | .ok (some (info, st)) =>
          ((insertRet devices id st).1, .sendEvent (some (.attached id info)))
  | .removal id => (removeL devices id, .sendEvent (some (.deattached id)))
  | .otherChange _ => (devices, .sendEvent none)
  | .input wparam id items =>
      if wparam = RIM_INPUT ∨ wparam = RIM_INPUTSINK then
        match getInputEventA devices (wparam = RIM_INPUTSINK) id items with
        | .error _ => (devices, .sendEvent (some .warn))
        | .ok (devices', ev) => (devices', .sendEvent ev)
      else (devices, .sendEvent none)
  | .otherMsg => (devices, .sendEvent none)

/-- `start_message_loop` (api.rs:172-216), collecting the events it sends.
The registry `devices` is declared INSIDE the loop body (api.rs:189:
`let mut devices = HashMap::new();`), so every iteration starts from an
empty registry; the map produced by an iteration is dropped. -/
def runApiLoop : List MsgA → List EventA
  | [] => []
  | msg :: rest =>
      match stepMsgA [] msg with
      | (_, .stopLoop) => []
      | (_, .sendEvent none) => runApiLoop rest
      | (_, .sendEvent (some e)) => e :: runApiLoop rest

/-! ## Helper lemmas -/

theorem decide_and_shift_eq_testBit (x i : Nat) :
    decide (x &&& 1 <<< i ≠ 0) = x.testBit i := by
  rw [Nat.one_shiftLeft, Nat.and_two_pow]
  cases h : x.testBit i
  · simp
  · simp [(Nat.two_pow_pos i).ne']

theorem lookupL_append {κ α : Type} [DecidableEq κ] (m₁ m₂ : List (κ × α)) (k : κ) :
    lookupL (m₁ ++ m₂) k =
      (match lookupL m₁ k with
       | none => lookupL m₂ k
       | some v => some v) := by
  induction m₁ with
  | nil => simp [lookupL]
  | cons p rest ih =>
      by_cases h : p.1 = k <;> simp [lookupL, h, ih]

theorem insertRet_of_lookup_none {κ α : Type} [DecidableEq κ]
    {m : List (κ × α)} {k : κ} (v : α) (h : lookupL m k = none) :
    insertRet m k v = (m ++ [(k, v)], none) := by
  simp [insertRet, h]

/-- C2. For all bitsets `a, b` of equal capacity (32, 64 or 128 via
`impl_bits!`, or 256 via `B256`) and every valid position `i < CAP`,
`xor(a,b).bit(i)` is `Some` of the disagreement of `a.bit(i)` and
`b.bit(i)`, and `xor(a,a)` has population count zero. -/
theorem bits_xor_bit_and_popcount :
    (∀ w, w = 32 ∨ w = 64 ∨ w = 128 →
      ∀ a b : Nat, a < 2 ^ w → b < 2 ^ w →
        (∀ i, i < w →
          bitW w (a ^^^ b) i = some (decide (bitW w a i ≠ bitW w b i))) ∧
        countOnesW w (a ^^^ a) = 0) ∧
    (∀ x y : B256, x.valid → y.valid →
      (∀ i, i < 256 →
        (x.xor y).bit i = some (decide (x.bit i ≠ y.bit i))) ∧
      (x.xor x).countOnes = 0) := by
  have hcount : ∀ w : Nat, countOnesW w 0 = 0 := by
    intro w
    simp [countOnesW, Nat.zero_testBit]
  constructor
  · intro w _ a b _ _
    constructor
    · intro i hi
      simp only [bitW, ge_iff_le, if_neg (by omega : ¬ w ≤ i)]
      rw [decide_and_shift_eq_testBit, decide_and_shift_eq_testBit,
        decide_and_shift_eq_testBit, Nat.testBit_xor]
      cases a.testBit i <;> cases b.testBit i <;> simp
    · rw [Nat.xor_self]
      exact hcount w
  · intro x y _ _
    constructor
    · intro i hi
      by_cases hlo : i < 128
      · simp only [B256.bit, B256.xor, ge_iff_le, if_neg (by omega : ¬ 256 ≤ i),
          if_pos hlo]
        rw [decide_and_shift_eq_testBit, decide_and_shift_eq_testBit,
          decide_and_shift_eq_testBit, Nat.testBit_xor]
        cases x.lo.testBit i <;> cases y.lo.testBit i <;> simp
      · simp only [B256.bit, B256.xor, ge_iff_le, if_neg (by omega : ¬ 256 ≤ i),
          if_neg hlo]
        rw [decide_and_shift_eq_testBit, decide_and_shift_eq_testBit,
          decide_and_shift_eq_testBit, Nat.testBit_xor]
        cases x.hi.testBit (i - 128) <;> cases y.hi.testBit (i - 128) <;> simp
    · simp [B256.xor, Nat.xor_self, B256.countOnes, hcount]

/-- Witness for C2 at capacity 32 with `a = 5`, `b = 3`, `i = 1`, and at
`B256` with concrete limbs. -/
theorem bits_xor_bit_and_popcount_witness :
    (5 < 2 ^ 32 ∧ 3 < 2 ^ 32 ∧ (1 : Nat) < 32 ∧
      bitW 32 (5 ^^^ 3) 1 = some (decide (bitW 32 5 1 ≠ bitW 32 3 1)) ∧
      countOnesW 32 (5 ^^^ 5) = 0) ∧
    ((B256.mk 6 1).valid ∧ (B256.mk 5 0).valid ∧
      ((B256.mk 6 1).xor (B256.mk 5 0)).bit 128 =
        some (decide ((B256.mk 6 1).bit 128 ≠ (B256.mk 5 0).bit 128)) ∧
      ((B256.mk 6 1).xor (B256.mk 6 1)).countOnes = 0) := by
  have h32 := bits_xor_bit_and_popcount.1 32 (Or.inl rfl) 5 3 (by norm_num) (by norm_num)
  have h256 := bits_xor_bit_and_popcount.2 (B256.mk 6 1) (B256.mk 5 0)
    ⟨by norm_num, by norm_num⟩ ⟨by norm_num, by norm_num⟩
  have h256s := bits_xor_bit_and_popcount.2 (B256.mk 6 1) (B256.mk 6 1)
    ⟨by norm_num, by norm_num⟩ ⟨by norm_num, by norm_num⟩
  exact ⟨⟨by norm_num, by norm_num, by norm_num, h32.1 1 (by norm_num), h32.2⟩,
    ⟨by norm_num, by norm_num⟩, ⟨by norm_num, by norm_num⟩,
    h256.1 128 (by norm_num), h256s.2⟩

/-- C8. Report decoding maps hat raw codes clockwise starting at Up
(`0→Up … 7→UpLeft`) and every other raw code to `Null`. -/
theorem hat_raw_code_decoding :
    dpadOfRaw 0 = .up ∧ dpadOfRaw 1 = .upRight ∧ dpadOfRaw 2 = .right ∧
    dpadOfRaw 3 = .downRight ∧ dpadOfRaw 4 = .down ∧ dpadOfRaw 5 = .downLeft ∧
    dpadOfRaw 6 = .left ∧ dpadOfRaw 7 = .upLeft ∧
    ∀ v : Nat, 8 ≤ v → dpadOfRaw v = .null := by
  refine ⟨rfl, rfl, rfl, rfl, rfl, rfl, rfl, rfl, ?_⟩
  intro v hv
  obtain ⟨k, rfl⟩ := Nat.exists_eq_add_of_le hv
  rw [Nat.add_comm]
  rfl

/-- Witness for C8: the out-of-range raw code 9 decodes to `Null`. -/
theorem hat_raw_code_decoding_witness : 8 ≤ 9 ∧ dpadOfRaw 9 = .null :=
  ⟨by decide, hat_raw_code_decoding.2.2.2.2.2.2.2.2 9 (by decide)⟩

/-- C1. For every previous/current pair of decoded snapshots (the event
builds the pair `(curr ^ prev, curr)`, api.rs:725-737), `StateDiff::diffs`
returns: the D-pad diff (if any) first, then button diffs in the profile's
declared button order, then axis diffs in profile order, then the slider
diff; and a button diff is emitted exactly at the profile ordinals where
`xor(prev, curr)` has the bit set, carrying `Pressed` iff the current
bitset has that bit set. -/
theorem diff_order_and_button_xor (BTNS : List ButtonId) (AXS : List (Option AxisDef))
    (prev curr : Nat) (dpad : Option DPadState) (axis : List (Option Int))
    (slider : Option Int) :
    StateDiff.diffs (bitW 32) BTNS AXS ⟨dpad, (curr ^^^ prev, curr), axis, slider⟩ =
      (match dpad with
       | some st => [ObjectDiff.dpad st]
       | none => []) ++
      (BTNS.enum.filterMap fun p =>
        if bitW 32 (prev ^^^ curr) p.1 = some true then
          some (ObjectDiff.button p.2
            (if curr.testBit p.1 then .pressed else .released))
        else none) ++
      ((AXS.enum.filterMap fun p => p.2.map fun prof => (p.1, prof)).filterMap fun q =>
        match (axis.get? q.1).join with
        | some st => some (ObjectDiff.axis q.2.typ st)
        | none => none) ++
      (match slider with
       | some st => [ObjectDiff.slider st]
       | none => []) := by
  have hmid : (fun p : Nat × ButtonId =>
      match bitW 32 (curr ^^^ prev) p.1 with
      | some true =>
          some (ObjectDiff.button p.2 (ButtonState.ofBool ((bitW 32 curr p.1).getD false)))
      | _ => none) =
      (fun p : Nat × ButtonId =>
        if bitW 32 (prev ^^^ curr) p.1 = some true then
          some (ObjectDiff.button p.2
            (if curr.testBit p.1 then .pressed else .released))
        else none) := by
    funext p
    by_cases h : p.1 < 32
    · simp only [bitW, ge_iff_le, if_neg (by omega : ¬ 32 ≤ p.1)]
      rw [Nat.xor_comm curr prev]
      simp only [decide_and_shift_eq_testBit]
      cases hpc : (prev ^^^ curr).testBit p.1 <;> cases hc : curr.testBit p.1 <;>
        simp [ButtonState.ofBool, hpc, hc]
    · simp [bitW, (by omega : 32 ≤ p.1)]
  simp only [StateDiff.diffs]
  rw [hmid]

/-- C4 counterexample: the slider range is NOT normalized.  A slider
capability slot of `(0, -1)` is copied verbatim into `DeviceInfo`
(api.rs:353-356), not rewritten to `(0, 65535)` as the claim states. -/
theorem slider_range_not_normalized_counterexample :
    (mkInfoA { DeviceCapA.empty with slider := some (0, -1) }).slider = some (0, -1) ∧
    some ((0 : Int), (-1 : Int)) ≠ some ((0 : Int), (65535 : Int)) := by
  constructor
  · rfl
  · decide

/-- C4 amended: during `DeviceInfo` construction (api.rs:333-356) a logical
range of `(0, -1)` is normalized to `(0, 65535)` and any other range passes
through unchanged for the AXIS ranges only; the slider range is copied
verbatim, with no normalization. -/
theorem range_normalization_axis_only
    (vmin vmax : Int) (c : DeviceCapA) :
    (vmin = 0 ∧ vmax = -1 → apiNormalize (vmin, vmax) = (0, 65535)) ∧
    (¬(vmin = 0 ∧ vmax = -1) → apiNormalize (vmin, vmax) = (vmin, vmax)) ∧
    (mkInfoA c).axis = c.axisCaps.map (Option.map apiNormalize) ∧
    (mkInfoA c).slider = c.slider := by
  refine ⟨fun h => ?_, fun h => ?_, rfl, rfl⟩
  · simp [apiNormalize, h.1, h.2]
  · simp only [apiNormalize, if_neg h]

/-- Witness for C4 amended at `(0, -1)`, `(3, 7)` and a concrete slot. -/
theorem range_normalization_axis_only_witness :
    apiNormalize (0, -1) = (0, 65535) ∧ apiNormalize (3, 7) = (3, 7) ∧
    (mkInfoA DeviceCapA.empty).slider = DeviceCapA.empty.slider :=
  ⟨(range_normalization_axis_only 0 (-1) DeviceCapA.empty).1 ⟨rfl, rfl⟩,
   (range_normalization_axis_only 3 7 DeviceCapA.empty).2.1 (by decide),
   (range_normalization_axis_only 3 7 DeviceCapA.empty).2.2.2⟩

/-- Two vendor-page value capabilities that resolve to `Unknown` entries at
the same data index 3. -/
def unknownCapA : ValueCapRec := ⟨.range 3 0x90, 0xff00, 0, 1⟩

def unknownCapB : ValueCapRec := ⟨.range 3 0x91, 0xff00, 0, 1⟩

/-- C6 counterexample: a collision between two `Unknown` entries does NOT
omit the diagnostic — mod.rs:444-452 logs a `warn!` on every duplicate data
index, so resolving the two vendor-page capabilities at data index 3
produces one diagnostic, not zero. -/
theorem unknown_collision_logs_counterexample :
    (modResolve [] [unknownCapA, unknownCapB]).warns = 1 ∧
    lookupL (modResolve [] [unknownCapA, unknownCapB]).mapping 3 =
      some (.unknown 0xff00 0x91) ∧
    (1 : Nat) ≠ 0 := by
  refine ⟨?_, ?_, by decide⟩ <;> decide

theorem insertRet_of_lookup_some {κ α : Type} [DecidableEq κ]
    {m : List (κ × α)} {k : κ} (v : α) {old : α} (h : lookupL m k = some old) :
    insertRet m k v = (m.map fun p => if p.1 = k then (k, v) else p, some old) := by
  simp [insertRet, h]

theorem lookupL_map_replace {κ α : Type} [DecidableEq κ]
    (m : List (κ × α)) (k : κ) (v : α) (h : (lookupL m k).isSome = true) :
    lookupL (m.map fun p => if p.1 = k then (k, v) else p) k = some v := by
  induction m with
  | nil => simp [lookupL] at h
  | cons p rest ih =>
      obtain ⟨pk, pv⟩ := p
      rw [List.map_cons]
      dsimp only
      by_cases hp : pk = k
      · rw [if_pos hp]
        simp [lookupL]
      · rw [if_neg hp]
        have h' : (lookupL rest k).isSome = true := by
          simpa [lookupL, hp] using h
        simp [lookupL, hp, ih h']

theorem modClassifyValue_mapping (st : ModResolveState) (cap : ValueCapRec) :
    (modClassifyValue st cap).2.mapping = st.mapping := by
  unfold modClassifyValue
  dsimp only
  split_ifs <;> rfl

theorem modClassifyValue_warns (st : ModResolveState) (cap : ValueCapRec) :
    (modClassifyValue st cap).2.warns = st.warns := by
  unfold modClassifyValue
  dsimp only
  split_ifs <;> rfl

theorem modClassifyValue_buttons (st : ModResolveState) (cap : ValueCapRec) :
    (modClassifyValue st cap).2.buttons = st.buttons := by
  unfold modClassifyValue
  dsimp only
  split_ifs <;> rfl

/-- C6 amended: in mod.rs `get_device`, assigning an object to a field index
that already has a mapping entry overwrites the previous entry and logs one
diagnostic, and is never fatal (the resolver is total); EVERY collision
produces the diagnostic, including collisions between two `Unknown` entries
and button-button collisions. -/
theorem duplicate_index_overwrite_diagnostic
    (st : ModResolveState) (cap : ValueCapRec) (di : Nat)
    (h1 : (lookupL st.mapping cap.modDiUsage.1).isSome = true)
    (h2 : (lookupL st.mapping di).isSome = true) :
    ((modValueCap st cap).warns = st.warns + 1 ∧
     lookupL (modValueCap st cap).mapping cap.modDiUsage.1 =
       some (modClassifyValue st cap).1) ∧
    ((modButtonStep st di).warns = st.warns + 1 ∧
     lookupL (modButtonStep st di).mapping di = some (.button st.buttons)) := by
  obtain ⟨o1, ho1⟩ := Option.isSome_iff_exists.mp h1
  obtain ⟨o2, ho2⟩ := Option.isSome_iff_exists.mp h2
  have hv : insertRet (modClassifyValue st cap).2.mapping cap.modDiUsage.1
      (modClassifyValue st cap).1 =
      ((modClassifyValue st cap).2.mapping.map
        fun p => if p.1 = cap.modDiUsage.1 then (cap.modDiUsage.1, (modClassifyValue st cap).1) else p,
       some o1) := by
    rw [modClassifyValue_mapping]
    exact insertRet_of_lookup_some _ ho1
  refine ⟨⟨?_, ?_⟩, ?_, ?_⟩
  · simp [modValueCap, hv, modClassifyValue_warns]
  · simp only [modValueCap, hv]
    rw [modClassifyValue_mapping]
    exact lookupL_map_replace _ _ _ h1
  · simp [modButtonStep, insertRet_of_lookup_some _ ho2]
  · simp only [modButtonStep, insertRet_of_lookup_some _ ho2]
    exact lookupL_map_replace _ _ _ h2

/-- Witness for C6 amended: a state whose mapping already binds index 3
(to an `Unknown` entry) and a vendor-page capability colliding at index 3. -/
theorem duplicate_index_overwrite_diagnostic_witness :
    ((lookupL ({ ModResolveState.init with
        mapping := [(3, ModObjIdx.unknown 5 5)] }).mapping unknownCapA.modDiUsage.1).isSome = true) ∧
    (modValueCap { ModResolveState.init with mapping := [(3, ModObjIdx.unknown 5 5)] }
        unknownCapA).warns =
      ({ ModResolveState.init with mapping := [(3, ModObjIdx.unknown 5 5)] } :
        ModResolveState).warns + 1 ∧
    (modButtonStep { ModResolveState.init with mapping := [(3, ModObjIdx.unknown 5 5)] }
        3).warns =
      ({ ModResolveState.init with mapping := [(3, ModObjIdx.unknown 5 5)] } :
        ModResolveState).warns + 1 := by
  refine ⟨by decide, ?_, ?_⟩
  · exact (duplicate_index_overwrite_diagnostic
      { ModResolveState.init with mapping := [(3, ModObjIdx.unknown 5 5)] }
      unknownCapA 3 (by decide) (by decide)).1.1
  · exact (duplicate_index_overwrite_diagnostic
      { ModResolveState.init with mapping := [(3, ModObjIdx.unknown 5 5)] }
      unknownCapA 3 (by decide) (by decide)).2.1

/-- A blob that parses fine but declares zero button and zero value
capabilities. -/
def emptyCapsBlob : ApiBlob := ⟨1, true, true, true, [], []⟩

/-- C7 counterexample: a device with zero button capabilities and zero value
capabilities is NOT attached.  `get_device_cap` returns `Ok(None)`
(api.rs:427-430) and the arrival notification is silently dropped — no
`Attached` event, no registry entry — contradicting "with the device still
attached". -/
theorem zero_caps_device_dropped_counterexample :
    getDeviceCapA emptyCapsBlob = .ok none ∧
    stepMsgA [] (.arrival 7 (.blob emptyCapsBlob)) = ([], .sendEvent none) := by
  constructor <;> rfl

/-- C7 amended: a parseable blob with zero button and zero value
capabilities makes capability resolution return `Ok(None)`: the arrival is
silently dropped (no event, no registry entry), the device is NOT attached;
and `get_device_cap` returns an error only when the blob cannot be parsed
(`HidP_MaxDataListLength` returning zero or a failing `HidP_Get*Caps`
call). -/
theorem zero_caps_silently_dropped
    (blob : ApiBlob) (devices : RegistryA) (id : Int)
    (h1 : blob.maxDataListLength ≠ 0) (h2 : blob.getCapsOk = true)
    (h3 : blob.buttonCaps = []) (h4 : blob.valueCaps = []) :
    (getDeviceCapA blob = .ok none ∧
     stepMsgA devices (.arrival id (.blob blob)) = (devices, .sendEvent none)) ∧
    (∀ (b : ApiBlob) (e : Unit), getDeviceCapA b = .error e →
      b.maxDataListLength = 0 ∨ b.getCapsOk = false ∨
      b.getButtonCapsOk = false ∨ b.getValueCapsOk = false) := by
  have hcap : getDeviceCapA blob = .ok none := by
    simp [getDeviceCapA, h1, h2, h3, h4]
  refine ⟨⟨hcap, by simp [stepMsgA, getDeviceA, hcap]⟩, ?_⟩
  intro b e h
  unfold getDeviceCapA at h
  split_ifs at h with hc1 hc2 hc3 hc4 hc5 hc6
  · exact Or.inl hc1
  · exact Or.inr (Or.inl hc2)
  · exact Or.inr (Or.inr (Or.inl hc4.2))
  · exact Or.inr (Or.inr (Or.inr hc6.2))

/-- Witness for C7 amended, at the zero/zero blob. -/
theorem zero_caps_silently_dropped_witness :
    emptyCapsBlob.maxDataListLength ≠ 0 ∧ emptyCapsBlob.getCapsOk = true ∧
    getDeviceCapA emptyCapsBlob = .ok none ∧
    stepMsgA [] (.arrival 9 (.blob emptyCapsBlob)) = ([], .sendEvent none) := by
  have h := zero_caps_silently_dropped emptyCapsBlob [] 9
    (by decide) (by decide) (by decide) (by decide)
  exact ⟨by decide, by decide, h.1.1, h.1.2⟩

/-- C9. A data notification whose device identity has no registry entry
produces a `Warning` event (api.rs:653-656 errors, api.rs:212 converts the
error into `Event::Warn`), leaves the registry unchanged, and the message
loop continues with the next notification. -/
theorem unknown_identity_data_yields_warning
    (devices : RegistryA) (wparam : Nat) (id : Int) (items : List DataItem)
    (rest : List MsgA)
    (hw : wparam = RIM_INPUT ∨ wparam = RIM_INPUTSINK)
    (habs : lookupL devices id = none) :
    stepMsgA devices (.input wparam id items) = (devices, .sendEvent (some .warn)) ∧
    runApiLoop (.input wparam id items :: rest) = .warn :: runApiLoop rest := by
  constructor
  · simp [stepMsgA, if_pos hw, getInputEventA, habs]
  · have hstep : stepMsgA [] (.input wparam id items) = ([], .sendEvent (some .warn)) := by
      simp [stepMsgA, if_pos hw, getInputEventA, lookupL]
    simp [runApiLoop, hstep]

/-- Witness for C9: empty registry, identity 3, `RIM_INPUT`. -/
theorem unknown_identity_data_yields_warning_witness :
    ((0 : Nat) = RIM_INPUT ∨ (0 : Nat) = RIM_INPUTSINK) ∧
    lookupL ([] : RegistryA) 3 = none ∧
    stepMsgA [] (.input 0 3 []) = ([], .sendEvent (some .warn)) ∧
    runApiLoop [.input 0 3 [], .otherMsg] = [.warn] := by
  have h := unknown_identity_data_yields_warning [] 0 3 [] [.otherMsg]
    (Or.inl rfl) rfl
  refine ⟨Or.inl rfl, rfl, h.1, ?_⟩
  rw [h.2]
  rfl

/-- C10. If the resolved button count exceeds `ButtonBits::CAP`,
`get_device_cap` returns `Ok(None)` (api.rs:466-475) and the arrival
notification is dropped with only a diagnostic: no event is emitted and no
registry entry is created (api.rs:265-272: `Ok(None)` short-circuits before
`devices.insert`). -/
theorem button_overflow_drops_device
    (blob : ApiBlob) (devices : RegistryA) (id : Int)
    (h1 : blob.maxDataListLength ≠ 0) (h2 : blob.getCapsOk = true)
    (h3 : blob.getButtonCapsOk = true)
    (hlen : (apiButtonMapping blob.buttonCaps).length > buttonBitsCap) :
    getDeviceCapA blob = .ok none ∧
    stepMsgA devices (.arrival id (.blob blob)) = (devices, .sendEvent none) := by
  have hbc : blob.buttonCaps ≠ [] := by
    intro h
    rw [h] at hlen
    simp [apiButtonMapping, buttonBitsCap] at hlen
  have hcap : getDeviceCapA blob = .ok none := by
    simp [getDeviceCapA, h1, h2, h3, hbc, hlen]
  exact ⟨hcap, by simp [stepMsgA, getDeviceA, hcap]⟩

/-- A single button capability spanning data indices 0..=32: 33 buttons,
one more than `ButtonBits::CAP = 32`. -/
def overflowBlob : ApiBlob := ⟨1, true, true, true, [.range 0 32], []⟩

/-- Witness for C10 at a 33-button blob. -/
theorem button_overflow_drops_device_witness :
    (apiButtonMapping overflowBlob.buttonCaps).length > buttonBitsCap ∧
    getDeviceCapA overflowBlob = .ok none ∧
    stepMsgA [] (.arrival 11 (.blob overflowBlob)) = ([], .sendEvent none) := by
  have h := button_overflow_drops_device overflowBlob [] 11
    (by decide) (by decide) (by decide) (by decide)
  exact ⟨by decide, h.1, h.2⟩

/-- C5 (registry persistence, violated).  `start_message_loop` creates the
`devices` HashMap INSIDE the loop body (api.rs:189), so the entry inserted
when an arrival is processed is dropped at the end of that iteration: a
subsequent data notification for the same identity finds an empty registry
and is answered with a `Warn` event instead of a `StateDiff`.  This theorem
evaluates the loop on an arrival followed by a data notification for the
same identity. -/
theorem registry_reset_each_iteration_bug
    (id : Int) (f : DevFetch) (info : DeviceInfoA) (st : DeviceStatusA)
    (wparam : Nat) (items : List DataItem) (rest : List MsgA)
    (hf : getDeviceA f = .ok (some (info, st)))
    (hw : wparam = RIM_INPUT ∨ wparam = RIM_INPUTSINK) :
    runApiLoop (.arrival id f :: .input wparam id items :: rest) =
      .attached id info :: .warn :: runApiLoop rest := by
  have h1 : stepMsgA [] (.arrival id f) =
      ((insertRet [] id st).1, .sendEvent (some (.attached id info))) := by
    simp [stepMsgA, hf]
  have h2 : stepMsgA [] (.input wparam id items) = ([], .sendEvent (some .warn)) := by
    simp [stepMsgA, if_pos hw, getInputEventA, lookupL]
  simp [runApiLoop, h1, h2]

/-- A parseable single-button blob. -/
def oneButtonBlob : ApiBlob := ⟨1, true, true, true, [.single 0], []⟩

/-- The capability record resolved from `oneButtonBlob`. -/
def oneButtonCap : DeviceCapA :=
  { DeviceCapA.empty with buttonsNum := 1, mapping := [(0, .button 0)] }

/-- Witness for C5: identity 7 arrives with a one-button device, then sends
a report; the loop emits `Attached` then `Warn`. -/
theorem registry_reset_each_iteration_bug_witness :
    getDeviceA (.blob oneButtonBlob) =
      .ok (some (mkInfoA oneButtonCap, ⟨1, oneButtonCap, DeviceObjectStatesA.default⟩)) ∧
    runApiLoop [.arrival 7 (.blob oneButtonBlob), .input 0 7 [⟨0, true, 0⟩]] =
      [.attached 7 (mkInfoA oneButtonCap), .warn] := by
  have hf : getDeviceA (.blob oneButtonBlob) =
      .ok (some (mkInfoA oneButtonCap, ⟨1, oneButtonCap, DeviceObjectStatesA.default⟩)) := by
    rfl
  refine ⟨hf, ?_⟩
  have h := registry_reset_each_iteration_bug 7 (.blob oneButtonBlob)
    (mkInfoA oneButtonCap) ⟨1, oneButtonCap, DeviceObjectStatesA.default⟩
    0 [⟨0, true, 0⟩] [] hf (Or.inl rfl)
  rw [h]
  rfl

/-! ## Button-ordinal density (mod.rs resolver) -/

theorem modButtonStep_of_fresh (st : ModResolveState) (i : Nat)
    (h : lookupL st.mapping i = none) :
    modButtonStep st i =
      { st with
          mapping := st.mapping ++ [(i, ModObjIdx.button st.buttons)]
          buttons := st.buttons + 1 } := by
  simp [modButtonStep, insertRet_of_lookup_none _ h]

/-- The button phase over a duplicate-free list of fresh data indices
appends one `Button` entry per index, ordinals counting up from the running
counter. -/
theorem foldl_modButtonStep_fresh (is : List Nat) :
    ∀ st : ModResolveState, is.Nodup →
      (∀ i ∈ is, lookupL st.mapping i = none) →
      is.foldl modButtonStep st =
        { st with
            mapping := st.mapping ++
              (List.enumFrom st.buttons is).map (fun p => (p.2, ModObjIdx.button p.1))
            buttons := st.buttons + is.length } := by
  induction is with
  | nil => intro st _ _; simp
  | cons i rest ih =>
      intro st hnodup hfresh
      have h0 : lookupL st.mapping i = none := hfresh i (by simp)
      have hrest : ∀ j ∈ rest,
          lookupL (st.mapping ++ [(i, ModObjIdx.button st.buttons)]) j = none := by
        intro j hj
        rw [lookupL_append]
        rw [hfresh j (by simp [hj])]
        have hij : i ≠ j := fun he => (List.nodup_cons.mp hnodup).1 (he ▸ hj)
        simp [lookupL, hij]
      rw [List.foldl_cons, modButtonStep_of_fresh st i h0,
        ih _ (List.nodup_cons.mp hnodup).2 hrest]
      simp [List.enumFrom_cons, List.append_assoc]
      omega

theorem modClassifyValue_item_not_button (st : ModResolveState) (vc : ValueCapRec) :
    ∀ n, (modClassifyValue st vc).1 ≠ ModObjIdx.button n := by
  unfold modClassifyValue
  dsimp only
  split_ifs <;> intro n <;> simp

theorem buttonEntries_append (a b : List (Nat × ModObjIdx)) :
    buttonEntries (a ++ b) = buttonEntries a ++ buttonEntries b :=
  List.filterMap_append ..

theorem buttonEntries_cons (pk : Nat) (pv : ModObjIdx) (rest : List (Nat × ModObjIdx)) :
    buttonEntries ((pk, pv) :: rest) =
      (match pv with
       | ModObjIdx.button n => [(pk, n)]
       | _ => []) ++ buttonEntries rest := by
  cases pv <;> simp [buttonEntries, List.filterMap_cons]

/-- Replacing the entry at a key that carries no `Button` entry, by a
non-`Button` item, leaves the button entries unchanged. -/
theorem buttonEntries_map_replace (m : List (Nat × ModObjIdx)) (k : Nat) (v : ModObjIdx)
    (hv : ∀ n, v ≠ ModObjIdx.button n)
    (h : k ∉ (buttonEntries m).map Prod.fst) :
    buttonEntries (m.map fun p => if p.1 = k then (k, v) else p) = buttonEntries m := by
  induction m with
  | nil => rfl
  | cons p rest ih =>
      obtain ⟨pk, pv⟩ := p
      rw [buttonEntries_cons, List.map_append, List.mem_append] at h
      obtain ⟨h1, h2⟩ := not_or.mp h
      rw [List.map_cons]
      dsimp only
      by_cases hp : pk = k
      · rw [if_pos hp, buttonEntries_cons, buttonEntries_cons]
        have hv' : (match v with
            | ModObjIdx.button n => [(k, n)]
            | _ => ([] : List (Nat × Nat))) = [] := by
          cases v with
          | button n => exact absurd rfl (hv n)
          | axis o => rfl
          | slider o => rfl
          | hat o => rfl
          | unknown a b => rfl
        have hpv' : (match pv with
            | ModObjIdx.button n => [(pk, n)]
            | _ => ([] : List (Nat × Nat))) = [] := by
          cases pv with
          | button n => exact absurd (by simp [hp]) h1
          | axis o => rfl
          | slider o => rfl
          | hat o => rfl
          | unknown a b => rfl
        rw [hv', hpv']
        simp only [List.nil_append]
        exact ih h2
      · rw [if_neg hp, buttonEntries_cons, buttonEntries_cons, ih h2]

/-- The value-caps phase never touches button entries whose data index it
does not reuse: each step inserts a non-`Button` item. -/
theorem buttonEntries_modValueCap (st : ModResolveState) (vc : ValueCapRec)
    (h : vc.modDiUsage.1 ∉ (buttonEntries st.mapping).map Prod.fst) :
    buttonEntries (modValueCap st vc).mapping = buttonEntries st.mapping := by
  have hm := modClassifyValue_mapping st vc
  have hnb := modClassifyValue_item_not_button st vc
  cases hl : lookupL st.mapping vc.modDiUsage.1 with
  | none =>
      have hins : insertRet (modClassifyValue st vc).2.mapping vc.modDiUsage.1
          (modClassifyValue st vc).1 =
          ((modClassifyValue st vc).2.mapping ++
            [(vc.modDiUsage.1, (modClassifyValue st vc).1)], none) := by
        rw [hm]
        exact insertRet_of_lookup_none _ hl
      have hsingle : buttonEntries [(vc.modDiUsage.1, (modClassifyValue st vc).1)] = [] := by
        rw [buttonEntries_cons]
        cases hcl : (modClassifyValue st vc).1 with
        | button n => exact absurd hcl (hnb n)
        | axis o => rfl
        | slider o => rfl
        | hat o => rfl
        | unknown a b => rfl
      simp only [modValueCap, hins]
      rw [hm, buttonEntries_append, hsingle, List.append_nil]
  | some old =>
      have hins : insertRet (modClassifyValue st vc).2.mapping vc.modDiUsage.1
          (modClassifyValue st vc).1 =
          ((modClassifyValue st vc).2.mapping.map
            (fun p => if p.1 = vc.modDiUsage.1 then
              (vc.modDiUsage.1, (modClassifyValue st vc).1) else p), some old) := by
        rw [hm]
        exact insertRet_of_lookup_some _ hl
      simp only [modValueCap, hins]
      rw [hm]
      exact buttonEntries_map_replace st.mapping _ _ hnb h

theorem buttonEntries_foldl_modValueCap (vcaps : List ValueCapRec) :
    ∀ st : ModResolveState,
      (∀ vc ∈ vcaps, vc.modDiUsage.1 ∉ (buttonEntries st.mapping).map Prod.fst) →
      buttonEntries ((vcaps.foldl modValueCap st).mapping) = buttonEntries st.mapping := by
  induction vcaps with
  | nil => intro st _; rfl
  | cons vc rest ih =>
      intro st h
      have h0 := buttonEntries_modValueCap st vc (h vc (by simp))
      have hrest : ∀ vc' ∈ rest,
          vc'.modDiUsage.1 ∉ (buttonEntries (modValueCap st vc).mapping).map Prod.fst := by
        intro vc' hvc'
        rw [h0]
        exact h vc' (List.mem_cons_of_mem _ hvc')
      rw [List.foldl_cons, ih _ hrest, h0]

theorem modValueCap_buttons (st : ModResolveState) (vc : ValueCapRec) :
    (modValueCap st vc).buttons = st.buttons := by
  simp [modValueCap, modClassifyValue_buttons]

theorem foldl_modValueCap_buttons (vcaps : List ValueCapRec) :
    ∀ st : ModResolveState, (vcaps.foldl modValueCap st).buttons = st.buttons := by
  induction vcaps with
  | nil => intro; rfl
  | cons vc rest ih =>
      intro st
      rw [List.foldl_cons, ih, modValueCap_buttons]

theorem buttonEntries_enum_map (l : List (Nat × Nat)) :
    buttonEntries (l.map fun p => (p.2, ModObjIdx.button p.1)) = l.map fun p => (p.2, p.1) := by
  induction l with
  | nil => rfl
  | cons p rest ih =>
      rw [List.map_cons, buttonEntries_cons, ih, List.map_cons, List.singleton_append]

/-- C3 counterexample: duplicate field indices break density.  For the
descriptor `[single 5, single 5]`, mod.rs `get_device` counts two buttons
(`info.buttons += 1` on every touched index) but the second insert
overwrites the entry with ordinal 1: the mapping holds ordinal 1 only, so
the ordinals {1} are NOT the contiguous range 0..2. -/
theorem duplicate_button_index_breaks_density :
    (modResolve [.single 5, .single 5] []).buttons = 2 ∧
    buttonEntries (modResolve [.single 5, .single 5] []).mapping = [(5, 1)] ∧
    (buttonEntries (modResolve [.single 5, .single 5] []).mapping).map Prod.snd = [1] := by
  exact ⟨by decide, by decide, by decide⟩

/-- C3 amended: for a descriptor whose button field indices are pairwise
distinct and are not reused by any value capability, the button entries of
the resolved mapping are exactly `(k-th index, ordinal k)` for the flattened
index list in descriptor encounter order, and `button_count` equals the
number of indices — i.e. the ordinals form the contiguous zero-based range
`0..button_count` with no gaps and no duplicates. -/
theorem button_ordinals_dense_without_duplicates
    (bcaps : List ButtonCapRec) (vcaps : List ValueCapRec)
    (hnodup : ((bcaps.map ButtonCapRec.indices).flatten).Nodup)
    (hval : ∀ vc ∈ vcaps, vc.modDiUsage.1 ∉ (bcaps.map ButtonCapRec.indices).flatten) :
    buttonEntries (modResolve bcaps vcaps).mapping =
      ((bcaps.map ButtonCapRec.indices).flatten).enum.map (fun p => (p.2, p.1)) ∧
    (modResolve bcaps vcaps).buttons =
      ((bcaps.map ButtonCapRec.indices).flatten).length := by
  have hphase : bcaps.foldl modButtonCap ModResolveState.init =
      ((bcaps.map ButtonCapRec.indices).flatten).foldl modButtonStep ModResolveState.init := by
    rw [List.foldl_flatten, List.foldl_map]
    rfl
  have hfold := foldl_modButtonStep_fresh ((bcaps.map ButtonCapRec.indices).flatten)
    ModResolveState.init hnodup (fun i _ => rfl)
  have hmap1 : (((bcaps.map ButtonCapRec.indices).flatten).foldl modButtonStep
      ModResolveState.init).mapping =
      (List.enumFrom 0 ((bcaps.map ButtonCapRec.indices).flatten)).map
        (fun p => (p.2, ModObjIdx.button p.1)) := by
    rw [hfold]
    simp [ModResolveState.init]
  have hbtn1 : (((bcaps.map ButtonCapRec.indices).flatten).foldl modButtonStep
      ModResolveState.init).buttons = ((bcaps.map ButtonCapRec.indices).flatten).length := by
    rw [hfold]
    simp [ModResolveState.init]
  have hbe1 : buttonEntries (((bcaps.map ButtonCapRec.indices).flatten).foldl modButtonStep
      ModResolveState.init).mapping =
      (List.enumFrom 0 ((bcaps.map ButtonCapRec.indices).flatten)).map (fun p => (p.2, p.1)) := by
    rw [hmap1]
    exact buttonEntries_enum_map _
  have hkeys : ((buttonEntries (((bcaps.map ButtonCapRec.indices).flatten).foldl modButtonStep
      ModResolveState.init).mapping).map Prod.fst) = (bcaps.map ButtonCapRec.indices).flatten := by
    rw [hbe1, List.map_map]
    have hcomp : (Prod.fst ∘ fun p : Nat × Nat => (p.2, p.1)) = Prod.snd := rfl
    rw [hcomp, List.enumFrom_map_snd]
  have hval' : ∀ vc ∈ vcaps, vc.modDiUsage.1 ∉
      (buttonEntries (((bcaps.map ButtonCapRec.indices).flatten).foldl modButtonStep
        ModResolveState.init).mapping).map Prod.fst := by
    intro vc hvc
    rw [hkeys]
    exact hval vc hvc
  constructor
  · unfold modResolve
    rw [hphase, buttonEntries_foldl_modValueCap _ _ hval', hbe1]
    rfl
  · unfold modResolve
    rw [hphase, foldl_modValueCap_buttons, hbtn1]

/-- Witness for C3 amended: a range cap over indices 2..=4, a single cap at
index 9, and one X-axis value cap at index 7. -/
theorem button_ordinals_dense_without_duplicates_witness :
    (([ButtonCapRec.range 2 4, ButtonCapRec.single 9].map ButtonCapRec.indices).flatten).Nodup ∧
    (∀ vc ∈ [(⟨.range 7 0x30, 1, 0, 255⟩ : ValueCapRec)],
      vc.modDiUsage.1 ∉
        ([ButtonCapRec.range 2 4, ButtonCapRec.single 9].map ButtonCapRec.indices).flatten) ∧
    buttonEntries (modResolve [.range 2 4, .single 9] [⟨.range 7 0x30, 1, 0, 255⟩]).mapping =
      [(2, 0), (3, 1), (4, 2), (9, 3)] ∧
    (modResolve [.range 2 4, .single 9] [⟨.range 7 0x30, 1, 0, 255⟩]).buttons = 4 := by
  have h := button_ordinals_dense_without_duplicates [.range 2 4, .single 9]
    [⟨.range 7 0x30, 1, 0, 255⟩] (by decide) (by decide)
  refine ⟨by decide, by decide, ?_, ?_⟩
  · rw [h.1]
    rfl
  · rw [h.2]
    rfl
